import Mathlib

/-!
Shallow embedding of the `quadrature` incremental-encoder driver
(`quadrature-encoder/src/encoder/indexed.rs`, the indexed three-pin
variant) together with proofs about its specified behaviour.

Modelling conventions:
* Pin handles are inert values of arbitrary types `Clk`, `Dt`, `Idx`;
  the outcome of each hardware level read (`is_high`) is passed to the
  operations explicitly as an `Except Unit Bool` (the Rust code discards
  the concrete pin error via `map_err(|_| ...)`, so `Unit` is the
  faithful error payload).
* Rust methods taking `&mut self` become functions returning the updated
  encoder next to their result.
* The Gray-code transition decoder lives in the external
  `quadrature-decoder` crate; it is modelled from the spec's black-box
  Decode Engine contract, parametrised by an abstract transition table.
* The counter type `T` is instantiated at its default `i32`, modelled as
  `Int` with explicit clamping to the `i32` range in the saturating add.
-/

namespace Quadrature

/-- Modelled from the spec: the Decode Engine's decode error ("invalid
transition": a Gray-code state change unreachable from the previous
state).  The `quadrature-decoder` crate defining it is not under `src/`. -/
inductive QuadratureError
  | InvalidTransition
deriving DecidableEq

/-- Modelled from the spec: pin-read error tag naming which channel
failed.  The `crate::InputPinError` enum is not under `src/`; its three
variants are fixed by their uses in `indexed.rs` (`InputPinError::PinClk`,
`PinDt`, `PinIdx`). -/
inductive InputPinError
  | PinClk
  | PinDt
  | PinIdx
deriving DecidableEq

/-- Modelled from the spec: the encoder error type.  The `crate::Error`
enum is not under `src/`; its two variants are fixed by their uses in
`indexed.rs` (`Error::InputPin(..)` and `Error::Quadrature(..)`) and by
spec section 7 (pin errors and decode errors are distinct variants). -/
inductive Error
  | InputPin (e : InputPinError)
  | Quadrature (e : QuadratureError)
deriving DecidableEq

/-- Modelled from the spec: a successful decoder change carrying a
direction (Decode Engine contract, spec section 6: `Change{direction}`). -/
inductive Change
  | Positive
  | Negative
deriving DecidableEq

/-- Lower bound of the `i32` counter type. -/
def i32Min : Int := -2147483648

/-- Upper bound of the `i32` counter type. -/
def i32Max : Int := 2147483647

/-- Rust `i32::saturating_add` on in-range values: the mathematical sum
clamped to the representable `i32` range. -/
def i32SaturatingAdd (a b : Int) : Int :=
  max i32Min (min i32Max (a + b))

/-- Modelled from the spec: the counter delta contributed by one decoded
change (`T: From<i8>` bound in `indexed.rs`; one signed unit step per
reported change). -/
def Change.delta : Change → Int
  | .Positive => 1
  | .Negative => -1

/-- The decoder's raw channel state: last seen (clk, dt, idx) levels. -/
abbrev RawState := Bool × Bool × Bool

/-- Modelled from the spec: the Decode Engine's internal Gray-code
transition table, kept abstract (spec treats it as a black box): given
the previous and the newly observed raw state it yields no change, a
directed change, or an invalid-transition error. -/
abbrev TransitionTable := RawState → RawState → Except QuadratureError (Option Change)

/-- Modelled from the spec: the Decode Engine state
(`IndexedIncrementalDecoder` of the external `quadrature-decoder` crate):
internal Gray-code raw state plus its own position counter. -/
structure IndexedIncrementalDecoder where
  rawState : RawState
  counter : Int
deriving DecidableEq

/-- Modelled from the spec: `Default::default()` for the decoder —
position counter initialised to zero. -/
def IndexedIncrementalDecoder.default : IndexedIncrementalDecoder :=
  { rawState := (false, false, false), counter := 0 }

/-- Modelled from the spec: the Decode Engine `update` operation (spec
section 6): consults the transition table on (previous raw state, new raw
state); on a directed change it adds the change's delta to the counter
with saturating arithmetic; in every case it resynchronises the raw state
to the newly observed levels. -/
def IndexedIncrementalDecoder.update (tbl : TransitionTable)
    (d : IndexedIncrementalDecoder) (clk dt idx : Bool) :
    Except QuadratureError (Option Change) × IndexedIncrementalDecoder :=
  match tbl d.rawState (clk, dt, idx) with
  | .error e => (.error e, { rawState := (clk, dt, idx), counter := d.counter })
  | .ok none => (.ok none, { rawState := (clk, dt, idx), counter := d.counter })
  | .ok (some c) =>
      (.ok (some c),
       { rawState := (clk, dt, idx), counter := i32SaturatingAdd d.counter c.delta })

/-- Modelled from the spec: the Decode Engine `set_counter` operation. -/
def IndexedIncrementalDecoder.set_counter (d : IndexedIncrementalDecoder) (v : Int) :
    IndexedIncrementalDecoder :=
  { d with counter := v }

/-- Modelled from the spec: the Decode Engine `reset` operation — zeroes
the internal counter (spec section 4.2). -/
def IndexedIncrementalDecoder.reset (d : IndexedIncrementalDecoder) :
    IndexedIncrementalDecoder :=
  { d with counter := 0 }

/-- Modelled from the spec: rotary movement values (spec section 3). -/
inductive RotaryMovement
  | Clockwise
  | CounterClockwise
deriving DecidableEq

/-- Modelled from the spec: linear movement values (also visible in
`examples/linear_async.rs`: `LinearMovement::Forward` / `Backward`). -/
inductive LinearMovement
  | Forward
  | Backward
deriving DecidableEq

/-- Modelled from the spec: the operation-mode capability (spec section
4.5): a conversion from a raw decoder change to the mode's movement value
(`Movement: From<Change>`) and a flip transform used under reversal. -/
structure OperationMode (M : Type) where
  fromChange : Change → M
  flipped : M → M

/-- Modelled from the spec: the rotary operation mode. -/
def Rotary : OperationMode RotaryMovement :=
  { fromChange := fun c =>
      match c with
      | .Positive => .Clockwise
      | .Negative => .CounterClockwise
    flipped := fun m =>
      match m with
      | .Clockwise => .CounterClockwise
      | .CounterClockwise => .Clockwise }

/-- Modelled from the spec: the linear operation mode. -/
def Linear : OperationMode LinearMovement :=
  { fromChange := fun c =>
      match c with
      | .Positive => .Forward
      | .Negative => .Backward
    flipped := fun m =>
      match m with
      | .Forward => .Backward
      | .Backward => .Forward }

/-- The encoder state of `IndexedIncrementalEncoder` in `indexed.rs`:
decoder, three owned pin handles, reversal flag, and the three cached
pin level flags. -/
structure IndexedIncrementalEncoder (Clk Dt Idx : Type) where
  decoder : IndexedIncrementalDecoder
  pin_clk : Clk
  pin_dt : Dt
  pin_idx : Idx
  is_reversed : Bool
  pin_clk_state : Bool
  pin_dt_state : Bool
  pin_idx_state : Bool

/-- Rust `Result::unwrap_or(false)` applied to a pin level read: an
errored read is treated as level low. -/
def readOrFalse (r : Except Unit Bool) : Bool :=
  match r with
  | .ok b => b
  | .error _ => false

/-- `IndexedIncrementalEncoder::new`: samples each pin's level once
(the read outcomes are passed explicitly), mapping a read failure to
`false` via `unwrap_or(false)`, with a default decoder and the reversal
flag clear. -/
def IndexedIncrementalEncoder.new {Clk Dt Idx : Type}
    (pin_clk : Clk) (pin_dt : Dt) (pin_idx : Idx)
    (readClk readDt readIdx : Except Unit Bool) :
    IndexedIncrementalEncoder Clk Dt Idx :=
  { decoder := IndexedIncrementalDecoder.default
    pin_clk := pin_clk
    pin_dt := pin_dt
    pin_idx := pin_idx
    is_reversed := false
    pin_clk_state := readOrFalse readClk
    pin_dt_state := readOrFalse readDt
    pin_idx_state := readOrFalse readIdx }

/-- `IndexedIncrementalEncoder::reversed`: sets the reversal flag and
returns the consuming encoder. -/
def IndexedIncrementalEncoder.reversed {Clk Dt Idx : Type}
    (e : IndexedIncrementalEncoder Clk Dt Idx) : IndexedIncrementalEncoder Clk Dt Idx :=
  { e with is_reversed := true }

/-- `IndexedIncrementalEncoder::pins_mut`: borrows of the clock and data
pins (modelled as returning the two handles; no mutation occurs). -/
def IndexedIncrementalEncoder.pins_mut {Clk Dt Idx : Type}
    (e : IndexedIncrementalEncoder Clk Dt Idx) : Clk × Dt :=
  (e.pin_clk, e.pin_dt)

/-- `IndexedIncrementalEncoder::release`: consumes self, returning the
signal channel pins — the clock and data handles only. -/
def IndexedIncrementalEncoder.release {Clk Dt Idx : Type}
    (e : IndexedIncrementalEncoder Clk Dt Idx) : Clk × Dt :=
  (e.pin_clk, e.pin_dt)

/-- The decode tail shared by both `cfg` variants of
`IndexedIncrementalEncoder::poll`: run the decoder update on the cached
levels, map a decode error to `Error::Quadrature`, convert a change to a
movement via the operation mode, and flip it when the reversal flag is
set. -/
def IndexedIncrementalEncoder.decodeStep {Clk Dt Idx : Type} {M : Type}
    (mode : OperationMode M) (tbl : TransitionTable)
    (e : IndexedIncrementalEncoder Clk Dt Idx) :
    Except Error (Option M) × IndexedIncrementalEncoder Clk Dt Idx :=
  let r := e.decoder.update tbl e.pin_clk_state e.pin_dt_state e.pin_idx_state
  let e4 := { e with decoder := r.2 }
  match r.1 with
  | .error qe => (.error (.Quadrature qe), e4)
  | .ok change =>
      (.ok ((change.map mode.fromChange).map
        (fun m => if e4.is_reversed then mode.flipped m else m)), e4)

/-- `IndexedIncrementalEncoder::poll` in the blocking build
(`cfg(not(feature="async"))`): reads clock, data and index in order with
the `?` operator — each read failure maps to the channel-identified
`Error::InputPin` variant and short-circuits; each successful read is
stored into the corresponding cached level flag; then the decode tail
runs on the cached levels. -/
def IndexedIncrementalEncoder.poll {Clk Dt Idx : Type} {M : Type}
    (mode : OperationMode M) (tbl : TransitionTable)
    (readClk readDt readIdx : Except Unit Bool)
    (e : IndexedIncrementalEncoder Clk Dt Idx) :
    Except Error (Option M) × IndexedIncrementalEncoder Clk Dt Idx :=
  match readClk with
  | .error _ => (.error (.InputPin .PinClk), e)
  | .ok c =>
    let e1 := { e with pin_clk_state := c }
    match readDt with
    | .error _ => (.error (.InputPin .PinDt), e1)
    | .ok d =>
      let e2 := { e1 with pin_dt_state := d }
      match readIdx with
      | .error _ => (.error (.InputPin .PinIdx), e2)
      | .ok i =>
        let e3 := { e2 with pin_idx_state := i }
        IndexedIncrementalEncoder.decodeStep mode tbl e3

/-- `IndexedIncrementalEncoder::poll` in the event-driven build
(`cfg(feature="async")`): the pin-reading block is compiled out, so the
decode tail runs directly on the cached levels with no pin reads. -/
def IndexedIncrementalEncoder.pollEventDriven {Clk Dt Idx : Type} {M : Type}
    (mode : OperationMode M) (tbl : TransitionTable)
    (e : IndexedIncrementalEncoder Clk Dt Idx) :
    Except Error (Option M) × IndexedIncrementalEncoder Clk Dt Idx :=
  IndexedIncrementalEncoder.decodeStep mode tbl e

/-- Which edge direction an edge-wait operation suspends on. -/
inductive Edge
  | rising
  | falling
deriving DecidableEq

/-- The edge-wait issued for a pin in `poll_async`: a cached high level
expects a falling edge next, a cached low level a rising edge. -/
def edgeWaitFor (cached : Bool) : Edge :=
  match cached with
  | true => .falling
  | false => .rising

/-- Outcome of the `select3` race in `poll_async`: which of the three
concurrent edge-waits completed first (`Either3` of `embassy_futures`). -/
inductive Either3
  | First
  | Second
  | Third
deriving DecidableEq

/-- `IndexedIncrementalEncoder::poll_async`: issues one edge-wait per
owned pin (direction derived from the cached level), races them with
`select3` (the winner is supplied by the environment as `Either3`),
negates exactly the winning pin's cached level flag with no re-read, and
then calls `poll()` — which in the async build is the bare decode tail.
The triple of issued edge directions is returned alongside so that the
waits the code constructs are part of the observable trace. -/
def IndexedIncrementalEncoder.poll_async {Clk Dt Idx : Type} {M : Type}
    (mode : OperationMode M) (tbl : TransitionTable) (winner : Either3)
    (e : IndexedIncrementalEncoder Clk Dt Idx) :
    (Edge × Edge × Edge) × (Except Error (Option M) × IndexedIncrementalEncoder Clk Dt Idx) :=
  let waits := (edgeWaitFor e.pin_clk_state, edgeWaitFor e.pin_dt_state,
                edgeWaitFor e.pin_idx_state)
  let e1 :=
    match winner with
    | .First => { e with pin_clk_state := !e.pin_clk_state }
    | .Second => { e with pin_dt_state := !e.pin_dt_state }
    | .Third => { e with pin_idx_state := !e.pin_idx_state }
  (waits, IndexedIncrementalEncoder.pollEventDriven mode tbl e1)

/-- `IndexedIncrementalEncoder::reset`: resets the decoder via
`decoder.reset()`; nothing else is touched. -/
def IndexedIncrementalEncoder.reset {Clk Dt Idx : Type}
    (e : IndexedIncrementalEncoder Clk Dt Idx) : IndexedIncrementalEncoder Clk Dt Idx :=
  { e with decoder := e.decoder.reset }

/-- `IndexedIncrementalEncoder::position`: the decoder's counter. -/
def IndexedIncrementalEncoder.position {Clk Dt Idx : Type}
    (e : IndexedIncrementalEncoder Clk Dt Idx) : Int :=
  e.decoder.counter

/-- `IndexedIncrementalEncoder::set_position`: stores the value via
`decoder.set_counter`. -/
def IndexedIncrementalEncoder.set_position {Clk Dt Idx : Type}
    (e : IndexedIncrementalEncoder Clk Dt Idx) (v : Int) :
    IndexedIncrementalEncoder Clk Dt Idx :=
  { e with decoder := e.decoder.set_counter v }

/-- Iterated decoder updates over a list of observed raw levels, used to
state properties of repeated polling. -/
def updateIter (tbl : TransitionTable) (d : IndexedIncrementalDecoder) :
    List (Bool × Bool × Bool) → IndexedIncrementalDecoder
  | [] => d
  | (c, t, i) :: rest => updateIter tbl (d.update tbl c t i).2 rest

/-- Sample transition table that always reports a positive change. -/
def tableAlwaysPositive : TransitionTable := fun _ _ => .ok (some .Positive)

/-- Sample transition table that always reports an invalid transition. -/
def tableAlwaysInvalid : TransitionTable := fun _ _ => .error .InvalidTransition

/-- Sample encoder over `Nat` pin handles, for concrete witnesses. -/
def sampleEncoder : IndexedIncrementalEncoder Nat Nat Nat :=
  IndexedIncrementalEncoder.new 1 2 3 (.ok true) (.ok false) (.ok false)

/-- Sample decoder sitting exactly at the `i32` upper bound. -/
def decoderAtMax : IndexedIncrementalDecoder :=
  { rawState := (false, false, false), counter := i32Max }

/-- The decode tail only replaces the decoder (with the update on the
cached levels); pins, cached level flags and the reversal flag are kept. -/
theorem decodeStep_frame {Clk Dt Idx M : Type} (mode : OperationMode M)
    (tbl : TransitionTable) (e : IndexedIncrementalEncoder Clk Dt Idx) :
    (IndexedIncrementalEncoder.decodeStep mode tbl e).2 =
      { e with decoder := (e.decoder.update tbl e.pin_clk_state e.pin_dt_state e.pin_idx_state).2 } := by
  unfold IndexedIncrementalEncoder.decodeStep
  dsimp only
  split <;> rfl

/-- C3 as stated fails on the code: `release()` does not return the index
pin handle.  Two indexed encoders that differ only in their index pin
handle (here `3` versus `4`) have identical `release()` results, so
ownership of the index pin is not among what `release()` returns. -/
theorem spec_C3_counterexample :
    (IndexedIncrementalEncoder.new 1 2 3 (Except.ok false) (Except.ok false) (Except.ok false) :
        IndexedIncrementalEncoder Nat Nat Nat).release =
      (IndexedIncrementalEncoder.new 1 2 4 (Except.ok false) (Except.ok false)
        (Except.ok false)).release ∧
    (IndexedIncrementalEncoder.new 1 2 3 (Except.ok false) (Except.ok false) (Except.ok false) :
        IndexedIncrementalEncoder Nat Nat Nat).pin_idx ≠
      (IndexedIncrementalEncoder.new 1 2 4 (Except.ok false) (Except.ok false)
        (Except.ok false) : IndexedIncrementalEncoder Nat Nat Nat).pin_idx := by
  exact ⟨rfl, by decide⟩

/-- C3 (amended): `release()` consumes the encoder and returns ownership
of the clock and data pin handles; the index pin handle is dropped, not
returned. -/
theorem spec_C3_amended {Clk Dt Idx : Type} (e : IndexedIncrementalEncoder Clk Dt Idx) :
    e.release = (e.pin_clk, e.pin_dt) := rfl

/-- C4: `new(clk, dt, idx)` samples each pin's level once: a failed read
makes the corresponding cached level flag `false` instead of failing
construction, a successful read stores its value in that flag, and the
resulting encoder's `position()` is zero. -/
theorem spec_C4 {Clk Dt Idx : Type} (pc : Clk) (pd : Dt) (px : Idx)
    (rc rd ri : Except Unit Bool) :
    (IndexedIncrementalEncoder.new pc pd px rc rd ri).position = 0 ∧
    (∀ u, rc = .error u →
      (IndexedIncrementalEncoder.new pc pd px rc rd ri).pin_clk_state = false) ∧
    (∀ b, rc = .ok b →
      (IndexedIncrementalEncoder.new pc pd px rc rd ri).pin_clk_state = b) ∧
    (∀ u, rd = .error u →
      (IndexedIncrementalEncoder.new pc pd px rc rd ri).pin_dt_state = false) ∧
    (∀ b, rd = .ok b →
      (IndexedIncrementalEncoder.new pc pd px rc rd ri).pin_dt_state = b) ∧
    (∀ u, ri = .error u →
      (IndexedIncrementalEncoder.new pc pd px rc rd ri).pin_idx_state = false) ∧
    (∀ b, ri = .ok b →
      (IndexedIncrementalEncoder.new pc pd px rc rd ri).pin_idx_state = b) := by
  refine ⟨rfl, ?_, ?_, ?_, ?_, ?_, ?_⟩ <;> intro x h <;> subst h <;> rfl

/-- C4 witness: construction with a failing clock read and successful
data/index reads yields position zero, a low cached clock flag, and the
read values in the data/index flags. -/
theorem spec_C4_witness :
    (IndexedIncrementalEncoder.new 1 2 3 (Except.error ()) (Except.ok true) (Except.ok false) :
        IndexedIncrementalEncoder Nat Nat Nat).position = 0 ∧
    (IndexedIncrementalEncoder.new 1 2 3 (Except.error ()) (Except.ok true) (Except.ok false) :
        IndexedIncrementalEncoder Nat Nat Nat).pin_clk_state = false ∧
    (IndexedIncrementalEncoder.new 1 2 3 (Except.error ()) (Except.ok true) (Except.ok false) :
        IndexedIncrementalEncoder Nat Nat Nat).pin_dt_state = true :=
  ⟨(spec_C4 1 2 3 (Except.error ()) (Except.ok true) (Except.ok false)).1,
   (spec_C4 1 2 3 (Except.error ()) (Except.ok true) (Except.ok false)).2.1 () rfl,
   (spec_C4 1 2 3 (Except.error ()) (Except.ok true) (Except.ok false)).2.2.2.2.1 true rfl⟩

/-- C6: `set_position(v)` makes an immediately following `position()`
return `v`, and changes nothing else: cached level flags, the reversal
flag, the pin handles, and the decoder's raw Gray-code state are all
untouched, so no decode pipeline runs and no movement is produced. -/
theorem spec_C6 {Clk Dt Idx : Type} (e : IndexedIncrementalEncoder Clk Dt Idx) (v : Int) :
    (e.set_position v).position = v ∧
    (e.set_position v).pin_clk_state = e.pin_clk_state ∧
    (e.set_position v).pin_dt_state = e.pin_dt_state ∧
    (e.set_position v).pin_idx_state = e.pin_idx_state ∧
    (e.set_position v).is_reversed = e.is_reversed ∧
    (e.set_position v).decoder.rawState = e.decoder.rawState ∧
    (e.set_position v).pin_clk = e.pin_clk ∧
    (e.set_position v).pin_dt = e.pin_dt ∧
    (e.set_position v).pin_idx = e.pin_idx :=
  ⟨rfl, rfl, rfl, rfl, rfl, rfl, rfl, rfl, rfl⟩

/-- C8: `reset()` zeroes the Decode Engine's counter and changes nothing
else in the encoder: the three cached pin level flags, the reversal flag
and the pin handles are unchanged. -/
theorem spec_C8 {Clk Dt Idx : Type} (e : IndexedIncrementalEncoder Clk Dt Idx) :
    (e.reset).position = 0 ∧
    (e.reset).pin_clk_state = e.pin_clk_state ∧
    (e.reset).pin_dt_state = e.pin_dt_state ∧
    (e.reset).pin_idx_state = e.pin_idx_state ∧
    (e.reset).is_reversed = e.is_reversed ∧
    (e.reset).pin_clk = e.pin_clk ∧
    (e.reset).pin_dt = e.pin_dt ∧
    (e.reset).pin_idx = e.pin_idx :=
  ⟨rfl, rfl, rfl, rfl, rfl, rfl, rfl, rfl⟩

/-- C1: In the blocking build, `poll()` reads the owned pins and stores
each successfully read level in the corresponding cached flag; a clock,
data or index read failure is mapped to the channel-identified
`Error::InputPin` variant (`PinClk`, `PinDt`, `PinIdx` respectively);
when all reads succeed any returned error is the distinct
`Error::Quadrature` decode variant, an invalid transition reported by
the decoder's update on the read levels does surface from `poll()` as
exactly that `Quadrature` error, and the pin-read and decode error
variants are never equal. -/
theorem spec_C1 {Clk Dt Idx M : Type} (mode : OperationMode M) (tbl : TransitionTable)
    (rc rd ri : Except Unit Bool) (e : IndexedIncrementalEncoder Clk Dt Idx) :
    (∀ u, rc = .error u →
      (IndexedIncrementalEncoder.poll mode tbl rc rd ri e).1 =
        .error (.InputPin .PinClk)) ∧
    (∀ c u, rc = .ok c → rd = .error u →
      (IndexedIncrementalEncoder.poll mode tbl rc rd ri e).1 =
        .error (.InputPin .PinDt)) ∧
    (∀ c d u, rc = .ok c → rd = .ok d → ri = .error u →
      (IndexedIncrementalEncoder.poll mode tbl rc rd ri e).1 =
        .error (.InputPin .PinIdx)) ∧
    (∀ c d i, rc = .ok c → rd = .ok d → ri = .ok i →
      (IndexedIncrementalEncoder.poll mode tbl rc rd ri e).2.pin_clk_state = c ∧
      (IndexedIncrementalEncoder.poll mode tbl rc rd ri e).2.pin_dt_state = d ∧
      (IndexedIncrementalEncoder.poll mode tbl rc rd ri e).2.pin_idx_state = i ∧
      ∀ err, (IndexedIncrementalEncoder.poll mode tbl rc rd ri e).1 = .error err →
        ∃ qe, err = Error.Quadrature qe) ∧
    (∀ c d i qe, rc = .ok c → rd = .ok d → ri = .ok i →
      (e.decoder.update tbl c d i).1 = .error qe →
      (IndexedIncrementalEncoder.poll mode tbl rc rd ri e).1 =
        .error (.Quadrature qe)) ∧
    (∀ pe qe, Error.InputPin pe ≠ Error.Quadrature qe) := by
  refine ⟨?_, ?_, ?_, ?_, ?_, ?_⟩
  · intro u h; subst h; rfl
  · intro c u hc hd; subst hc; subst hd; rfl
  · intro c d u hc hd hi; subst hc; subst hd; subst hi; rfl
  · intro c d i hc hd hi
    subst hc; subst hd; subst hi
    unfold IndexedIncrementalEncoder.poll
    dsimp only
    refine ⟨?_, ?_, ?_, ?_⟩
    · rw [decodeStep_frame]
    · rw [decodeStep_frame]
    · rw [decodeStep_frame]
    · intro err herr
      unfold IndexedIncrementalEncoder.decodeStep at herr
      dsimp only at herr
      revert herr
      split
      · intro herr
        simp only [Prod.fst, Except.error.injEq] at herr
        exact ⟨_, herr.symm⟩
      · intro herr
        exact absurd herr (by simp)
  · intro c d i qe hc hd hi hupd
    subst hc; subst hd; subst hi
    unfold IndexedIncrementalEncoder.poll IndexedIncrementalEncoder.decodeStep
    dsimp only
    rw [hupd]
  · intro pe qe h
    exact Error.noConfusion h

/-- C1 witness: with a failing clock read, `poll()` on a concrete
encoder returns the clock-identified pin error; and with all reads
succeeding against an always-invalid table, the decoder's invalid
transition surfaces from `poll()` as the `Quadrature` decode error. -/
theorem spec_C1_witness :
    (IndexedIncrementalEncoder.poll Rotary tableAlwaysInvalid (Except.error ())
      (Except.ok true) (Except.ok true) sampleEncoder).1 =
      .error (.InputPin .PinClk) ∧
    (IndexedIncrementalEncoder.poll Rotary tableAlwaysInvalid (Except.ok true)
      (Except.ok false) (Except.ok false) sampleEncoder).1 =
      .error (.Quadrature .InvalidTransition) :=
  ⟨(spec_C1 Rotary tableAlwaysInvalid (Except.error ()) (Except.ok true) (Except.ok true)
      sampleEncoder).1 () rfl,
   (spec_C1 Rotary tableAlwaysInvalid (Except.ok true) (Except.ok false) (Except.ok false)
      sampleEncoder).2.2.2.2.1 true false false QuadratureError.InvalidTransition
      rfl rfl rfl rfl⟩

/-- C9: In the event-driven build, `poll()` performs no pin reads: the
three cached level flags are unchanged, the decoder is updated exactly on
the cached levels as they were, the result is never a pin-read error, and
any error it returns is the invalid-transition decode variant. -/
theorem spec_C9 {Clk Dt Idx M : Type} (mode : OperationMode M) (tbl : TransitionTable)
    (e : IndexedIncrementalEncoder Clk Dt Idx) :
    (IndexedIncrementalEncoder.pollEventDriven mode tbl e).2.pin_clk_state =
      e.pin_clk_state ∧
    (IndexedIncrementalEncoder.pollEventDriven mode tbl e).2.pin_dt_state =
      e.pin_dt_state ∧
    (IndexedIncrementalEncoder.pollEventDriven mode tbl e).2.pin_idx_state =
      e.pin_idx_state ∧
    (IndexedIncrementalEncoder.pollEventDriven mode tbl e).2.decoder =
      (e.decoder.update tbl e.pin_clk_state e.pin_dt_state e.pin_idx_state).2 ∧
    (∀ pe, (IndexedIncrementalEncoder.pollEventDriven mode tbl e).1 ≠
      Except.error (Error.InputPin pe)) ∧
    (∀ err, (IndexedIncrementalEncoder.pollEventDriven mode tbl e).1 = .error err →
      ∃ qe, err = Error.Quadrature qe) := by
  have hframe := decodeStep_frame mode tbl e
  unfold IndexedIncrementalEncoder.pollEventDriven
  refine ⟨?_, ?_, ?_, ?_, ?_, ?_⟩
  · rw [hframe]
  · rw [hframe]
  · rw [hframe]
  · rw [hframe]
  · intro pe herr
    unfold IndexedIncrementalEncoder.decodeStep at herr
    dsimp only at herr
    revert herr
    split
    · intro herr
      simp only [Prod.fst, Except.error.injEq] at herr
      exact Error.noConfusion herr
    · intro herr
      exact absurd herr (by simp)
  · intro err herr
    unfold IndexedIncrementalEncoder.decodeStep at herr
    dsimp only at herr
    revert herr
    split
    · intro herr
      simp only [Prod.fst, Except.error.injEq] at herr
      exact ⟨_, herr.symm⟩
    · intro herr
      exact absurd herr (by simp)

/-- C9 witness: on a concrete encoder with an always-invalid table, the
event-driven `poll()` result is not a pin error, and the decode error it
does produce is a `Quadrature` variant. -/
theorem spec_C9_witness :
    (IndexedIncrementalEncoder.pollEventDriven Rotary tableAlwaysInvalid sampleEncoder).1 ≠
      Except.error (Error.InputPin InputPinError.PinClk) ∧
    ∃ qe, Error.Quadrature QuadratureError.InvalidTransition = Error.Quadrature qe :=
  ⟨(spec_C9 Rotary tableAlwaysInvalid sampleEncoder).2.2.2.2.1 InputPinError.PinClk,
   (spec_C9 Rotary tableAlwaysInvalid sampleEncoder).2.2.2.2.2
     (Error.Quadrature QuadratureError.InvalidTransition) rfl⟩

/-- C5: On a successful decode reporting a change, `poll()` returns the
mode-mapped movement flipped exactly when the reversal flag is set;
`reversed()` sets the reversal flag on the consumed encoder and leaves
every other field unchanged, and `is_reversed()` merely reports the
flag. -/
theorem spec_C5 {Clk Dt Idx M : Type} (mode : OperationMode M) (tbl : TransitionTable)
    (c d i : Bool) (ch : Change) (e : IndexedIncrementalEncoder Clk Dt Idx)
    (hupd : (e.decoder.update tbl c d i).1 = .ok (some ch)) :
    (IndexedIncrementalEncoder.poll mode tbl (.ok c) (.ok d) (.ok i) e).1 =
      .ok (some (if e.is_reversed then mode.flipped (mode.fromChange ch)
                 else mode.fromChange ch)) ∧
    (e.reversed).is_reversed = true ∧
    (e.reversed).decoder = e.decoder ∧
    (e.reversed).pin_clk_state = e.pin_clk_state ∧
    (e.reversed).pin_dt_state = e.pin_dt_state ∧
    (e.reversed).pin_idx_state = e.pin_idx_state ∧
    (e.reversed).pin_clk = e.pin_clk ∧
    (e.reversed).pin_dt = e.pin_dt ∧
    (e.reversed).pin_idx = e.pin_idx := by
  refine ⟨?_, rfl, rfl, rfl, rfl, rfl, rfl, rfl, rfl⟩
  unfold IndexedIncrementalEncoder.poll IndexedIncrementalEncoder.decodeStep
  dsimp only
  rw [hupd]
  rfl

/-- C5 witness: a reversed concrete encoder polled through a table that
reports a positive change returns the flipped rotary movement. -/
theorem spec_C5_witness :
    (IndexedIncrementalEncoder.poll Rotary tableAlwaysPositive (Except.ok true)
      (Except.ok false) (Except.ok false) sampleEncoder.reversed).1 =
      Except.ok (some (if sampleEncoder.reversed.is_reversed
        then Rotary.flipped (Rotary.fromChange Change.Positive)
        else Rotary.fromChange Change.Positive)) ∧
    sampleEncoder.reversed.is_reversed = true :=
  ⟨(spec_C5 Rotary tableAlwaysPositive true false false Change.Positive
      sampleEncoder.reversed rfl).1,
   (spec_C5 Rotary tableAlwaysPositive true false false Change.Positive
      sampleEncoder.reversed rfl).2.1⟩

/-- C10: a fresh encoder is not reversed; `reversed()` only sets the flag
to `true`; and `poll`, `poll_async`, the event-driven `poll`, `reset` and
`set_position` all leave the reversal flag exactly as it was. -/
theorem spec_C10 {Clk Dt Idx M : Type} (pc : Clk) (pd : Dt) (px : Idx)
    (rc rd ri rc2 rd2 ri2 : Except Unit Bool) (mode : OperationMode M)
    (tbl : TransitionTable) (winner : Either3) (v : Int)
    (e : IndexedIncrementalEncoder Clk Dt Idx) :
    (IndexedIncrementalEncoder.new pc pd px rc rd ri).is_reversed = false ∧
    (e.reversed).is_reversed = true ∧
    (IndexedIncrementalEncoder.poll mode tbl rc2 rd2 ri2 e).2.is_reversed =
      e.is_reversed ∧
    (IndexedIncrementalEncoder.poll_async mode tbl winner e).2.2.is_reversed =
      e.is_reversed ∧
    (IndexedIncrementalEncoder.pollEventDriven mode tbl e).2.is_reversed =
      e.is_reversed ∧
    (e.reset).is_reversed = e.is_reversed ∧
    (e.set_position v).is_reversed = e.is_reversed := by
  refine ⟨rfl, rfl, ?_, ?_, ?_, rfl, rfl⟩
  · unfold IndexedIncrementalEncoder.poll
    cases rc2 with
    | error u => rfl
    | ok c =>
      cases rd2 with
      | error u => rfl
      | ok d =>
        cases ri2 with
        | error u => rfl
        | ok i =>
          dsimp only
          rw [decodeStep_frame]
  · unfold IndexedIncrementalEncoder.poll_async IndexedIncrementalEncoder.pollEventDriven
    cases winner <;> (dsimp only; rw [decodeStep_frame])
  · unfold IndexedIncrementalEncoder.pollEventDriven
    rw [decodeStep_frame]

/-- C2: `poll_async` issues a falling-edge wait for a pin exactly when
its cached level flag is high (and a rising-edge wait otherwise); the
race winner's cached flag is negated and the other two flags are kept;
and the overall outcome coincides with the synchronous `poll` fed the
optimistically updated cached levels as its (successful) reads — the same
decode logic on cached levels, with no re-read. -/
theorem spec_C2 {Clk Dt Idx M : Type} (mode : OperationMode M) (tbl : TransitionTable)
    (winner : Either3) (e : IndexedIncrementalEncoder Clk Dt Idx) :
    ((IndexedIncrementalEncoder.poll_async mode tbl winner e).1.1 = Edge.falling ↔
      e.pin_clk_state = true) ∧
    ((IndexedIncrementalEncoder.poll_async mode tbl winner e).1.2.1 = Edge.falling ↔
      e.pin_dt_state = true) ∧
    ((IndexedIncrementalEncoder.poll_async mode tbl winner e).1.2.2 = Edge.falling ↔
      e.pin_idx_state = true) ∧
    (winner = .First →
      (IndexedIncrementalEncoder.poll_async mode tbl winner e).2 =
        IndexedIncrementalEncoder.poll mode tbl (.ok (!e.pin_clk_state))
          (.ok e.pin_dt_state) (.ok e.pin_idx_state) e ∧
      (IndexedIncrementalEncoder.poll_async mode tbl winner e).2.2.pin_clk_state =
        !e.pin_clk_state ∧
      (IndexedIncrementalEncoder.poll_async mode tbl winner e).2.2.pin_dt_state =
        e.pin_dt_state ∧
      (IndexedIncrementalEncoder.poll_async mode tbl winner e).2.2.pin_idx_state =
        e.pin_idx_state) ∧
    (winner = .Second →
      (IndexedIncrementalEncoder.poll_async mode tbl winner e).2 =
        IndexedIncrementalEncoder.poll mode tbl (.ok e.pin_clk_state)
          (.ok (!e.pin_dt_state)) (.ok e.pin_idx_state) e ∧
      (IndexedIncrementalEncoder.poll_async mode tbl winner e).2.2.pin_clk_state =
        e.pin_clk_state ∧
      (IndexedIncrementalEncoder.poll_async mode tbl winner e).2.2.pin_dt_state =
        !e.pin_dt_state ∧
      (IndexedIncrementalEncoder.poll_async mode tbl winner e).2.2.pin_idx_state =
        e.pin_idx_state) ∧
    (winner = .Third →
      (IndexedIncrementalEncoder.poll_async mode tbl winner e).2 =
        IndexedIncrementalEncoder.poll mode tbl (.ok e.pin_clk_state)
          (.ok e.pin_dt_state) (.ok (!e.pin_idx_state)) e ∧
      (IndexedIncrementalEncoder.poll_async mode tbl winner e).2.2.pin_clk_state =
        e.pin_clk_state ∧
      (IndexedIncrementalEncoder.poll_async mode tbl winner e).2.2.pin_dt_state =
        e.pin_dt_state ∧
      (IndexedIncrementalEncoder.poll_async mode tbl winner e).2.2.pin_idx_state =
        !e.pin_idx_state) := by
  have hwc : (IndexedIncrementalEncoder.poll_async mode tbl winner e).1.1 =
      edgeWaitFor e.pin_clk_state := rfl
  have hwd : (IndexedIncrementalEncoder.poll_async mode tbl winner e).1.2.1 =
      edgeWaitFor e.pin_dt_state := rfl
  have hwi : (IndexedIncrementalEncoder.poll_async mode tbl winner e).1.2.2 =
      edgeWaitFor e.pin_idx_state := rfl
  refine ⟨?_, ?_, ?_, ?_, ?_, ?_⟩
  · rw [hwc]; cases e.pin_clk_state <;> simp [edgeWaitFor]
  · rw [hwd]; cases e.pin_dt_state <;> simp [edgeWaitFor]
  · rw [hwi]; cases e.pin_idx_state <;> simp [edgeWaitFor]
  · intro h; subst h
    unfold IndexedIncrementalEncoder.poll_async IndexedIncrementalEncoder.pollEventDriven
    dsimp only
    refine ⟨rfl, ?_, ?_, ?_⟩ <;> rw [decodeStep_frame]
  · intro h; subst h
    unfold IndexedIncrementalEncoder.poll_async IndexedIncrementalEncoder.pollEventDriven
    dsimp only
    refine ⟨rfl, ?_, ?_, ?_⟩ <;> rw [decodeStep_frame]
  · intro h; subst h
    unfold IndexedIncrementalEncoder.poll_async IndexedIncrementalEncoder.pollEventDriven
    dsimp only
    refine ⟨rfl, ?_, ?_, ?_⟩ <;> rw [decodeStep_frame]

/-- C2 witness: on a concrete encoder whose cached clock level is high,
a clock-edge win makes `poll_async` agree with the synchronous `poll` at
the negated cached clock level, and the cached clock flag ends up
negated. -/
theorem spec_C2_witness :
    (IndexedIncrementalEncoder.poll_async Rotary tableAlwaysPositive Either3.First
      sampleEncoder).2 =
      IndexedIncrementalEncoder.poll Rotary tableAlwaysPositive
        (.ok (!sampleEncoder.pin_clk_state)) (.ok sampleEncoder.pin_dt_state)
        (.ok sampleEncoder.pin_idx_state) sampleEncoder ∧
    (IndexedIncrementalEncoder.poll_async Rotary tableAlwaysPositive Either3.First
      sampleEncoder).2.2.pin_clk_state = !sampleEncoder.pin_clk_state :=
  ⟨((spec_C2 Rotary tableAlwaysPositive Either3.First sampleEncoder).2.2.2.1 rfl).1,
   ((spec_C2 Rotary tableAlwaysPositive Either3.First sampleEncoder).2.2.2.1 rfl).2.1⟩

/-- Auxiliary: one positive saturating step at the `i32` upper bound
stays at the bound. -/
theorem i32SaturatingAdd_pos_at_max :
    i32SaturatingAdd i32Max Change.Positive.delta = i32Max := by decide

/-- C7: the counter update inside the decoder's `update` saturates: with
a transition table that always reports an increment, iterating `update`
from a counter at the `i32` upper bound leaves it at the bound; and for
any table, one `update` keeps an in-range counter within the `i32` range
(no wrap, no error, no fault — `update` is a total function). -/
theorem spec_C7 (tbl : TransitionTable) (d : IndexedIncrementalDecoder)
    (inputs : List (Bool × Bool × Bool))
    (hinc : ∀ s t, tbl s t = Except.ok (some Change.Positive))
    (hd : d.counter = i32Max) :
    (updateIter tbl d inputs).counter = i32Max ∧
    (∀ (d2 : IndexedIncrementalDecoder) (clk dt idx : Bool),
      i32Min ≤ d2.counter → d2.counter ≤ i32Max →
      i32Min ≤ (d2.update tbl clk dt idx).2.counter ∧
      (d2.update tbl clk dt idx).2.counter ≤ i32Max) := by
  constructor
  · induction inputs generalizing d with
    | nil => exact hd
    | cons head tl ih =>
      obtain ⟨c, t, i⟩ := head
      have hstep : ((d.update tbl c t i).2).counter = i32Max := by
        unfold IndexedIncrementalDecoder.update
        rw [hinc]
        dsimp only
        rw [hd]
        exact i32SaturatingAdd_pos_at_max
      exact ih _ hstep
  · intro d2 clk dt idx h1 h2
    unfold IndexedIncrementalDecoder.update
    cases htbl : tbl d2.rawState (clk, dt, idx) with
    | error err => exact ⟨h1, h2⟩
    | ok oc =>
      cases oc with
      | none => exact ⟨h1, h2⟩
      | some c =>
        dsimp only
        unfold i32SaturatingAdd
        exact ⟨le_max_left _ _, max_le (by decide) (min_le_left _ _)⟩

/-- C7 witness: three iterated updates through an always-increment table
on a decoder sitting at the `i32` upper bound leave the counter at the
bound. -/
theorem spec_C7_witness :
    (updateIter tableAlwaysPositive decoderAtMax
      [(true, true, true), (false, false, false), (true, false, true)]).counter = i32Max :=
  (spec_C7 tableAlwaysPositive decoderAtMax
    [(true, true, true), (false, false, false), (true, false, true)]
    (fun _ _ => rfl) rfl).1

end Quadrature
